import Mathlib

/-!
Verification of the background-job orchestration and result-store core of the
dataset-manager backend.

The Python sources embedded here:
* `app/service/IO/result_service.py` — packing/unpacking of result JSON and the
  CRUD operations on `Results` records (`_pack`, `_unpack`, `get_latest_result`,
  `get_latest_result_data`, `save_structured_result`, `create_pending_result`,
  `update_result_data`, `mark_as_failed`);
* `app/models/result.py` — the `after_delete` listener that removes resource
  files from disk when a record is deleted through the ORM;
* `app/api/v1/endpoints/IO/remove_image.py` — `delete_all_image_results`, which
  deletes records with a bulk DELETE statement (bypassing the ORM listener);
* `app/core/task_manager.py` — the in-memory `TaskManager` job registry;
* `app/api/v1/endpoints/analysis/k_means.py` — `run_kmeans_task` /
  `save_kmeans_result`, the background K-means flow.

JSON values are modelled by the inductive `Val`; Python dicts are modelled as
insertion-ordered association lists (faithful to CPython dict semantics for the
programs at hand, which never create duplicate keys).  The database is a list
of records plus a fresh-id counter and a logical clock for `created_at`; the
disk is the list of existing regular files.
-/

namespace DatasetManager

/-- A JSON value as stored in the `Results.result` column (Python-side:
`None`, `int`, `str`, `list`, `dict`). -/
inductive Val where
  | null
  | int (n : Int)
  | str (s : String)
  | list (xs : List Val)
  | dict (entries : List (String × Val))

/-- `m.get(k)` on a Python dict modelled as an association list:
the value of the first (and, for well-formed dicts, only) entry with key `k`. -/
def dfind (m : List (String × Val)) (k : String) : Option Val :=
  (m.find? (fun p => p.1 == k)).map (·.2)

/-- `k in m` on a Python dict. -/
def hasKey (m : List (String × Val)) (k : String) : Bool :=
  m.any (fun p => p.1 == k)

/-- `m[k] = v` on a Python dict: overwrite in place if `k` is present,
otherwise append (insertion order preserved). -/
def dset (m : List (String × Val)) (k : String) (v : Val) : List (String × Val) :=
  if hasKey m k then m.map (fun p => if p.1 == k then (k, v) else p)
  else m ++ [(k, v)]

/-- `{**p, **d}` on Python dicts: keys of `p` in order (values overridden by
`d` where present), followed by the keys of `d` not occurring in `p`. -/
def merge (p d : List (String × Val)) : List (String × Val) :=
  p.map (fun kv => (kv.1, (dfind d kv.1).getD kv.2)) ++
    d.filter (fun kv => !(hasKey p kv.1))

/-- Python truthiness of a JSON value (`None`, `0`, `""`, `[]`, `{}` are falsy). -/
def truthy : Val → Bool
  | .null => false
  | .int n => n != 0
  | .str s => s != ""
  | .list xs => !xs.isEmpty
  | .dict m => !m.isEmpty

/-- A Python exception surfacing from the embedded code. -/
inductive PyErr where
  | typeError
  deriving DecidableEq

namespace ResultService

/-- `ResultService._pack(params, data, resources)` (result_service.py:18-24):
builds `{"params": params, "data": data, "resources": resources or []}`.
`resources` is an optional argument defaulting to `None`; `resources or []`
yields `[]` both for `None` and for an empty list, i.e. `Option.getD`. -/
def pack (params data : Val) (resources : Option (List Val)) : Val :=
  .dict [("params", params), ("data", data), ("resources", .list (resources.getD []))]

/-- `ResultService._unpack(db_json)` (result_service.py:26-36): a non-dict
returns `db_json or {}`; a dict with both `"params"` and `"data"` keys is
flattened to `{**db_json["params"], **db_json["data"]}` (a `TypeError` if
either value is not a dict); any other dict (the legacy flat shape) is
returned unchanged. -/
def unpack : Val → Except PyErr Val
  | .dict m =>
      if hasKey m "params" && hasKey m "data" then
        match dfind m "params", dfind m "data" with
        | some (.dict p), some (.dict d) => .ok (.dict (merge p d))
        | _, _ => .error .typeError
      else .ok (.dict m)
  | v => .ok (if truthy v then v else .dict [])

end ResultService

/-- A row of the `results` table (app/models/result.py): primary key, subject
image, method tag, JSON payload, creation timestamp (modelled by a logical
clock; `created_at DESC, id DESC` ordering is what matters). -/
structure Record where
  id : Nat
  image_id : Int
  name_method : String
  result : Val
  created_at : Nat

/-- A row of the `images` table, reduced to the fields the embedded flows
read (`id` and `dataset_id`). -/
structure ImageRow where
  id : Int
  dataset_id : Int

/-- The durable state: the `results` rows, the disk (a list of existing
regular files), the `images` rows, a fresh primary-key counter and a logical
clock for `created_at`. -/
structure DB where
  records : List Record
  disk : List String
  images : List ImageRow
  nextId : Nat
  now : Nat

/-- The file paths removed by the `after_delete` listener
`receive_after_delete` (app/models/result.py:28-50) for a record whose payload
is `j`: nothing if `j` is falsy or not a dict; otherwise, for each entry of
`j.get("resources", [])`, the value of its `"path"` key when that is a truthy
string (falsy paths are skipped by `if file_path_str:`; a non-string path makes
`os.remove` raise inside the per-path `try`, which is logged and skipped). -/
def resourcePaths (j : Val) : List String :=
  match j with
  | .dict m =>
      match (dfind m "resources").getD (.list []) with
      | .list rs =>
          (rs.map (fun r =>
            match r with
            | .dict rm =>
                match dfind rm "path" with
                | some (.str p) => if p == "" then [] else [p]
                | _ => []
            | _ => [])).flatten
      | _ => []
  | _ => []

/-- ORM deletion of every record satisfying `pred` (a `session.delete` loop,
as in result_service.py:80-88 and 124-132).  Each ORM-deleted record fires
`receive_after_delete`, which removes each of its `resourcePaths` from disk
when present (`exists() and is_file()` guard; removal errors are swallowed —
in this disk model of existing regular files each listed path simply ends up
absent). -/
def deleteRecordsWhere (db : DB) (pred : Record → Bool) : DB :=
  let doomed := db.records.filter pred
  let paths := (doomed.map (fun r => resourcePaths r.result)).flatten
  { db with
      records := db.records.filter (fun r => !(pred r)),
      disk := db.disk.filter (fun p => !(paths.contains p)) }

/-- The WHERE clause shared by the replace-previous and latest-result queries:
`Results.name_method == method AND Results.image_id == image_id`. -/
def matchesPair (image_id : Int) (method : String) (r : Record) : Bool :=
  r.image_id == image_id && r.name_method == method

namespace ResultService

/-- `ResultService.create_pending_result` (result_service.py:111-156): when
`clear_previous` is set, ORM-deletes every record for `(image_id, method)`;
then inserts a fresh record whose payload is
`_pack(params, {"status": "processing", "progress": 0}, [])` and commits. -/
def create_pending_result (db : DB) (image_id : Int) (method : String)
    (params : Val) (clear_previous : Bool) : DB × Record :=
  let db1 := if clear_previous then deleteRecordsWhere db (matchesPair image_id method) else db
  let newRec : Record :=
    { id := db1.nextId, image_id := image_id, name_method := method,
      result := pack params (.dict [("status", .str "processing"), ("progress", .int 0)]) (some []),
      created_at := db1.now }
  ({ db1 with records := db1.records ++ [newRec], nextId := db1.nextId + 1, now := db1.now + 1 },
   newRec)

/-- `ResultService.save_structured_result` (result_service.py:65-109): when
`clear_previous` is set, ORM-deletes every record for `(image_id, method)`
(the event listener removing their files); then inserts a fresh record whose
payload is `_pack(params, data, resources)` and commits. -/
def save_structured_result (db : DB) (image_id : Int) (method : String)
    (params data : Val) (resources : Option (List Val)) (clear_previous : Bool) : DB × Record :=
  let db1 := if clear_previous then deleteRecordsWhere db (matchesPair image_id method) else db
  let newRec : Record :=
    { id := db1.nextId, image_id := image_id, name_method := method,
      result := pack params data resources, created_at := db1.now }
  ({ db1 with records := db1.records ++ [newRec], nextId := db1.nextId + 1, now := db1.now + 1 },
   newRec)

/-- The `ORDER BY created_at DESC, id DESC` key comparison of
`get_latest_result`: `a` sorts strictly before `b`. -/
def laterThan (a b : Record) : Bool :=
  b.created_at < a.created_at || (a.created_at == b.created_at && b.id < a.id)

/-- `ResultService.get_latest_result` (result_service.py:38-56): the record
for `(image_id, method)` that is greatest under `(created_at, id)`, or none. -/
def get_latest_result (db : DB) (image_id : Int) (method : String) : Option Record :=
  (db.records.filter (matchesPair image_id method)).foldl
    (fun best r =>
      match best with
      | none => some r
      | some b => if laterThan r b then some r else some b) none

/-- `ResultService.get_latest_result_data` (result_service.py:58-63):
`get_latest_result` followed by `_unpack` of its payload. -/
def get_latest_result_data (db : DB) (image_id : Int) (method : String) :
    Except PyErr (Option Val) :=
  match get_latest_result db image_id method with
  | none => .ok none
  | some r => (unpack r.result).map some

/-- `ResultService.update_result_data` (result_service.py:158-194): loads the
record by primary key (`scalar_one_or_none`: zero matches → `None` → the
function returns `None` without error; several matches raise
`MultipleResultsFound`, which the surrounding `except Exception` turns into
rollback-and-return-`None`).  On success it keeps
`(record.result or {}).get("params", {})` and overwrites the payload with
`_pack(params, data, resources)`; a truthy non-dict payload makes `.get`
raise `AttributeError`, likewise caught and turned into rollback + `None`. -/
def update_result_data (db : DB) (result_id : Nat) (data : Val)
    (resources : Option (List Val)) : DB × Option Record :=
  match db.records.filter (fun r => r.id == result_id) with
  | [record] =>
      match (if truthy record.result then record.result else .dict []) with
      | .dict m =>
          let params := (dfind m "params").getD (.dict [])
          let newRec := { record with result := pack params data resources }
          ({ db with
               records := db.records.map (fun r => if r.id == result_id then newRec else r) },
           some newRec)
      | _ => (db, none)
  | _ => (db, none)

/-- `ResultService.mark_as_failed` (result_service.py:196-201):
`update_result_data(result_id, data={"status": "failed", "error": message})`,
with `resources` left at its default `None`. -/
def mark_as_failed (db : DB) (result_id : Nat) (error_message : String) : DB × Option Record :=
  update_result_data db result_id
    (.dict [("status", .str "failed"), ("error", .str error_message)]) none

end ResultService

/-- The five legacy top-level path fields probed by `delete_all_image_results`
(remove_image.py:39-46) for non-kmeans methods. -/
def legacyPathFields : List String :=
  ["output_file_path", "processed_image_path", "result_path",
   "blurred_image_path", "analysis_result_path"]

/-- The file paths removed by the manual per-record cleanup loop of
`delete_all_image_results` (remove_image.py:24-62): for a `"kmeans"` record,
the top-level `result_image_path`; for any other method, the five legacy
top-level fields plus the entries of a top-level `result_files` list — in all
cases only truthy strings, removed when they exist on disk.  Note the loop
reads top-level keys of the payload; it never looks under `resources`. -/
def manualCleanupPaths (r : Record) : List String :=
  match r.result with
  | .dict m =>
      if r.name_method == "kmeans" then
        match dfind m "result_image_path" with
        | some (.str p) => if p == "" then [] else [p]
        | _ => []
      else
        ((legacyPathFields.map (fun f =>
            match dfind m f with
            | some (.str p) => if p == "" then [] else [p]
            | _ => [])).flatten) ++
        (match dfind m "result_files" with
         | some (.list xs) =>
             (xs.map (fun x =>
               match x with
               | .str p => if p == "" then [] else [p]
               | _ => [])).flatten
         | _ => [])
  | _ => []

/-- `delete_all_image_results(db, image_id)` (remove_image.py:16-74): runs the
manual file cleanup for each record of the image, then — if any records exist —
deletes them with a single bulk `DELETE ... WHERE image_id = :id` statement.
A bulk Core DELETE bypasses the ORM unit of work, so the `after_delete`
listener does NOT fire for these rows and nothing under `resources` is
removed from disk. -/
def delete_all_image_results (db : DB) (image_id : Int) : DB :=
  let recs := db.records.filter (fun r => r.image_id == image_id)
  let paths := (recs.map manualCleanupPaths).flatten
  let disk1 := db.disk.filter (fun p => !(paths.contains p))
  if recs.isEmpty then { db with disk := disk1 }
  else { db with records := db.records.filter (fun r => !(r.image_id == image_id)),
                 disk := disk1 }

/-- Python `str()` of a JSON value as interpolated by the f-string building
`result_filename` in `save_kmeans_result` (only `int` occurs there; compound
values are abbreviated). -/
def pyStr : Val → String
  | .int n => toString n
  | .str s => s
  | .null => "None"
  | .list _ => "<list>"
  | .dict _ => "<dict>"

/-- `save_kmeans_result(db, image_id, result_data, colored_image)`
(k_means.py:133-189): loads the image row (`None` → `original_image.dataset_id`
raises `AttributeError`); builds the result file name from
`result_data["nclusters"]` (`KeyError` if absent); writes the colored image to
`uploads/results/<dataset>/<name>` (the one disk effect); stores
`result_image_path` / `result_filename` into `result_data`; then either bulk-
updates the single existing `(kmeans, image_id)` record's payload to the FLAT
`result_data` dict, or — with no existing record — calls
`result_service.save_analysis_result`, a method that does not exist on
`ResultService`, raising `AttributeError`; several existing records make
`scalar_one_or_none` raise `MultipleResultsFound`.  Raised errors propagate to
the caller (`except ... raise`, k_means.py:187-189). -/
def save_kmeans_result (db : DB) (image_id : Int) (result_data : List (String × Val)) :
    DB × Except String Unit :=
  match db.images.find? (fun im => im.id == image_id) with
  | none => (db, .error "AttributeError: NoneType object has no attribute dataset_id")
  | some im =>
      match dfind result_data "nclusters" with
      | none => (db, .error "KeyError: nclusters")
      | some k =>
          let result_filename := toString image_id ++ "_kmeans_" ++ pyStr k ++ ".jpg"
          let result_path :=
            "uploads/results/" ++ toString im.dataset_id ++ "/" ++ result_filename
          let disk1 := if db.disk.contains result_path then db.disk else db.disk ++ [result_path]
          let rd1 := dset (dset result_data "result_image_path" (.str result_path))
                       "result_filename" (.str result_filename)
          match db.records.filter (fun r => r.name_method == "kmeans" && r.image_id == image_id) with
          | [record] =>
              let newRec := { record with result := Val.dict rd1 }
              ({ db with
                   records := db.records.map (fun r => if r.id == record.id then newRec else r),
                   disk := disk1 }, .ok ())
          | [] =>
              ({ db with disk := disk1 },
               .error "AttributeError: ResultService object has no attribute save_analysis_result")
          | _ => ({ db with disk := disk1 }, .error "MultipleResultsFound")

/-- `run_kmeans_task(image_id, kmeans_params, bgr_image)` (k_means.py:191-228).
The numeric K-means computation (`apply_kmeans_sync`, run on the worker pool)
is opaque cv2 numerics, so its outcome is a parameter: `.ok result_data` if it
returned, `.error e` if it raised (the worker-pool handle rethrows the
exception to the awaiting coroutine).  The body awaits the computation and then
saves; the `except Exception` clause (k_means.py:226-228) only logs and
RE-RAISES, so on the error path nothing is written to the store and the
exception propagates to the background-task runner.  No pending record is
created and `mark_as_failed` is never called anywhere in this flow. -/
def run_kmeans_task (db : DB) (image_id : Int)
    (computation : Except String (List (String × Val))) : DB × Except String Unit :=
  match computation with
  | .error e => (db, .error e)
  | .ok rd => save_kmeans_result db image_id rd

/-! ### The in-memory job registry (app/core/task_manager.py) -/

/-- Generic lookup on a Python dict with keys of type `String`. -/
def alookup {α : Type} (l : List (String × α)) (k : String) : Option α :=
  (l.find? (fun p => p.1 == k)).map (·.2)

/-- Generic `d[k] = v` on a Python dict: overwrite in place or append. -/
def aset {α : Type} (l : List (String × α)) (k : String) (v : α) : List (String × α) :=
  if l.any (fun p => p.1 == k) then l.map (fun p => if p.1 == k then (k, v) else p)
  else l ++ [(k, v)]

/-- Generic `del d[k]` on a Python dict. -/
def aremove {α : Type} (l : List (String × α)) (k : String) : List (String × α) :=
  l.filter (fun p => !(p.1 == k))

/-- `TaskStatus` (task_manager.py:17-22). -/
inductive TaskStatus where
  | queued
  | processing
  | completed
  | failed
  | cancelled
  deriving DecidableEq

/-- A `Task` dataclass instance (task_manager.py:24-34).  The
`asyncio.Future` cancellation handle is reduced to the two observable bits
the registry reads or writes: whether a future is attached and whether
`.cancel()` has been called on it. -/
structure Task where
  task_id : String
  task_type : String
  status : TaskStatus
  progress : Int
  message : String
  result : Option Val
  error : Option String
  hasFuture : Bool
  futureCancelled : Bool

/-- The registry state: `self.tasks` and `self.subscribers`
(task_manager.py:37-39).  Subscriber callbacks are opaque; they are modelled
by numeric tokens, and "invoking" a callback is modelled by emitting a
`Notification` carrying its token. -/
structure TaskManager where
  tasks : List (String × Task)
  subscribers : List (String × List Nat)

/-- One delivered notification: the callback token it was pushed to and the
payload built by `notify_subscribers` (task_manager.py:86-98): status,
progress, message, a `completed` flag for terminal statuses, `has_result`
present iff `task.result` is truthy, and `error` present iff `task.error`
is truthy. -/
structure Notification where
  callback : Nat
  task_id : String
  status : TaskStatus
  progress : Int
  message : String
  completed : Bool
  has_result : Bool
  error : Option String

namespace TaskManager

/-- `TaskManager.get_task` (task_manager.py:46-48). -/
def get_task (tm : TaskManager) (task_id : String) : Option Task :=
  alookup tm.tasks task_id

/-- `TaskManager.add_task` (task_manager.py:41-44). -/
def add_task (tm : TaskManager) (t : Task) : TaskManager :=
  { tm with tasks := aset tm.tasks t.task_id t }

/-- `TaskManager.remove_task` (task_manager.py:50-61): cancels the task's
future if attached, deletes the task and drops its subscriber list; a no-op
for an unknown id. -/
def remove_task (tm : TaskManager) (task_id : String) : TaskManager :=
  match alookup tm.tasks task_id with
  | none => tm
  | some _ =>
      { tm with tasks := aremove tm.tasks task_id,
                subscribers := aremove tm.subscribers task_id }

/-- `TaskManager.subscribe_to_task` (task_manager.py:63-68): creates the
subscriber list for `task_id` if missing and appends the callback.  Note that
the existence of a task with this id is NOT checked. -/
def subscribe_to_task (tm : TaskManager) (task_id : String) (callback : Nat) : TaskManager :=
  { tm with
      subscribers :=
        aset tm.subscribers task_id ((alookup tm.subscribers task_id).getD [] ++ [callback]) }

/-- `TaskManager.unsubscribe_from_task` (task_manager.py:70-75): removes the
first occurrence of the callback when registered, dropping the subscriber
entry entirely when it becomes empty. -/
def unsubscribe_from_task (tm : TaskManager) (task_id : String) (callback : Nat) : TaskManager :=
  match alookup tm.subscribers task_id with
  | none => tm
  | some cbs =>
      if cbs.contains callback then
        let cbs' := cbs.erase callback
        if cbs'.isEmpty then { tm with subscribers := aremove tm.subscribers task_id }
        else { tm with subscribers := aset tm.subscribers task_id cbs' }
      else tm

/-- `TaskManager.notify_subscribers` (task_manager.py:77-105): returns early
with no deliveries if `task_id` has no subscriber entry OR no task exists for
it; otherwise pushes the notification payload to every registered callback
(callback exceptions are logged and swallowed, so delivery is unconditional
in this model). -/
def notify_subscribers (tm : TaskManager) (task_id : String) : List Notification :=
  match alookup tm.subscribers task_id with
  | none => []
  | some cbs =>
      match alookup tm.tasks task_id with
      | none => []
      | some task =>
          cbs.map (fun cb =>
            { callback := cb, task_id := task_id, status := task.status,
              progress := task.progress, message := task.message,
              completed := (task.status == .completed || task.status == .failed
                              || task.status == .cancelled),
              has_result := (match task.result with
                             | some v => truthy v
                             | none => false),
              error := (match task.error with
                        | some e => if e == "" then none else some e
                        | none => none) })

/-- `TaskManager.update_task_progress` (task_manager.py:107-118): a logged
no-op for an unknown id; otherwise sets progress and message and notifies. -/
def update_task_progress (tm : TaskManager) (task_id : String) (progress : Int)
    (message : String) : TaskManager × List Notification :=
  match get_task tm task_id with
  | none => (tm, [])
  | some task =>
      let t := { task with progress := progress, message := message }
      let tm1 := { tm with tasks := aset tm.tasks task_id t }
      (tm1, notify_subscribers tm1 task_id)

/-- `TaskManager.complete_task` (task_manager.py:120-132): a logged no-op for
an unknown id; otherwise UNCONDITIONALLY sets status COMPLETED, stores the
result, sets progress 100 and notifies — there is no check that the task is
not already in a terminal state. -/
def complete_task (tm : TaskManager) (task_id : String) (result : Val) :
    TaskManager × List Notification :=
  match get_task tm task_id with
  | none => (tm, [])
  | some task =>
      let t := { task with status := TaskStatus.completed, result := some result,
                           progress := 100 }
      let tm1 := { tm with tasks := aset tm.tasks task_id t }
      (tm1, notify_subscribers tm1 task_id)

/-- `TaskManager.fail_task` (task_manager.py:134-145): a logged no-op for an
unknown id; otherwise unconditionally sets status FAILED, stores the error
and notifies. -/
def fail_task (tm : TaskManager) (task_id : String) (error : String) :
    TaskManager × List Notification :=
  match get_task tm task_id with
  | none => (tm, [])
  | some task =>
      let t := { task with status := TaskStatus.failed, error := some error }
      let tm1 := { tm with tasks := aset tm.tasks task_id t }
      (tm1, notify_subscribers tm1 task_id)

/-- `TaskManager.cancel_task` (task_manager.py:147-162): `False` for an
unknown id; `False` (and no state change) when the status is COMPLETED or
FAILED — note that CANCELLED is NOT in this guard (py:153); otherwise sets
status CANCELLED, cancels the future if attached, notifies, returns `True`. -/
def cancel_task (tm : TaskManager) (task_id : String) :
    TaskManager × List Notification × Bool :=
  match get_task tm task_id with
  | none => (tm, [], false)
  | some task =>
      if task.status == .completed || task.status == .failed then (tm, [], false)
      else
        let t := { task with status := TaskStatus.cancelled,
                             futureCancelled := task.futureCancelled || task.hasFuture }
        let tm1 := { tm with tasks := aset tm.tasks task_id t }
        (tm1, notify_subscribers tm1 task_id, true)

end TaskManager

/-! ### Helper lemmas -/

theorem filter_filter_not {α : Type} (p : α → Bool) (l : List α) :
    (l.filter (fun a => !(p a))).filter p = [] := by
  induction l with
  | nil => rfl
  | cons a l ih =>
      by_cases h : p a = true
      · simp [List.filter_cons, h, ih]
      · simp [List.filter_cons, h, ih]

theorem find?_map_replace {α : Type} (l : List (String × α)) (k : String) (v : α)
    (h : l.any (fun p => p.1 == k) = true) :
    (l.map (fun p => if p.1 == k then (k, v) else p)).find? (fun p => p.1 == k)
      = some (k, v) := by
  have hfun : ((fun p : String × α => p.1 == k) ∘ (fun p => if p.1 == k then (k, v) else p))
      = (fun p : String × α => p.1 == k) := by
    funext x
    by_cases hx : (x.1 == k) = true
    · simp [Function.comp, hx]
    · simp [Function.comp, hx]
  rw [List.find?_map, hfun]
  obtain ⟨q0, hq0⟩ := Option.isSome_iff_exists.mp (List.find?_isSome.mpr (List.any_eq_true.mp h))
  have hp := List.find?_some hq0
  rw [hq0, Option.map_some', if_pos hp]

theorem alookup_aset {α : Type} (l : List (String × α)) (k : String) (v : α) :
    alookup (aset l k v) k = some v := by
  by_cases h : l.any (fun p => p.1 == k) = true
  · simp only [aset, if_pos h, alookup, find?_map_replace l k v h, Option.map_some']
  · have hn : l.find? (fun p => p.1 == k) = none := by
      rw [List.find?_eq_none]
      intro x hx hbeq
      exact h (List.any_eq_true.mpr ⟨x, hx, hbeq⟩)
    simp only [aset, if_neg h, alookup, List.find?_append, hn, Option.none_or]
    simp

/-! ## C6 — pack/unpack round trip and legacy passthrough -/

/-- C6: for all dicts `p`, `d` and every resource list `r`,
`_unpack(_pack(p, d, r)) == {**p, **d}`; and a legacy flat map with no
`params`/`data` wrapper is returned by `_unpack` unchanged. -/
theorem ResultService.unpack_pack_roundtrip
    (p d : List (String × Val)) (r : Option (List Val))
    (m : List (String × Val))
    (hlegacy : ¬(hasKey m "params" = true ∧ hasKey m "data" = true)) :
    ResultService.unpack (ResultService.pack (.dict p) (.dict d) r)
      = .ok (.dict (merge p d)) ∧
    ResultService.unpack (.dict m) = .ok (.dict m) := by
  constructor
  · rfl
  · have hcond : (hasKey m "params" && hasKey m "data") = false := by
      cases h1 : hasKey m "params" <;> cases h2 : hasKey m "data" <;> simp_all
    simp [ResultService.unpack, hcond]

/-- Witness for C6 at concrete inputs. -/
theorem ResultService.unpack_pack_roundtrip_witness :
    ResultService.unpack
        (ResultService.pack (.dict [("k", .int 3)]) (.dict [("s", .str "ok")]) none)
      = .ok (.dict [("k", .int 3), ("s", .str "ok")]) ∧
    ResultService.unpack (.dict [("x", .int 5)]) = .ok (.dict [("x", .int 5)]) :=
  ResultService.unpack_pack_roundtrip [("k", .int 3)] [("s", .str "ok")] none
    [("x", .int 5)] (by decide)

/-! ### Concrete registry fixtures -/

/-- A single task in status `st`, used to instantiate registry theorems. -/
def exTask (st : TaskStatus) : Task :=
  { task_id := "t1", task_type := "export", status := st, progress := 40,
    message := "m", result := none, error := none, hasFuture := true,
    futureCancelled := false }

/-- A registry holding exactly `exTask st` under id `"t1"`, no subscribers. -/
def exTM (st : TaskStatus) : TaskManager := ⟨[("t1", exTask st)], []⟩

/-! ## C2 — terminal statuses are not absorbing in the code -/

/-- Counterexample to C2 as stated: with a single PROCESSING job `"t1"`,
`cancel_task` sets CANCELLED (and returns true), but a later `complete_task`
call overwrites the status with COMPLETED — `complete_task`
(task_manager.py:120-132) has no terminal-state guard, so the late completion
is NOT ignored and the status does not remain CANCELLED. -/
theorem complete_after_cancel_not_ignored :
    (TaskManager.get_task
        (TaskManager.complete_task (TaskManager.cancel_task (exTM .processing) "t1").1
          "t1" (.dict [("ok", .int 1)])).1
        "t1").map Task.status = some TaskStatus.completed ∧
    (TaskManager.get_task
        (TaskManager.complete_task (TaskManager.cancel_task (exTM .processing) "t1").1
          "t1" (.dict [("ok", .int 1)])).1
        "t1").map Task.status ≠ some TaskStatus.cancelled := by
  refine ⟨rfl, ?_⟩
  have h1 : (TaskManager.get_task
      (TaskManager.complete_task (TaskManager.cancel_task (exTM .processing) "t1").1
        "t1" (.dict [("ok", .int 1)])).1
      "t1").map Task.status = some TaskStatus.completed := rfl
  rw [h1]
  decide

/-- C2 amended: after `cancel_task` moves a PROCESSING job to CANCELLED
(returning true), a later `complete_task` for the same id is NOT ignored — it
unconditionally sets the status to COMPLETED, because `complete_task` carries
no terminal-state guard. -/
theorem cancel_then_complete_sets_completed (tm : TaskManager) (id : String)
    (t : Task) (result : Val) (h : TaskManager.get_task tm id = some t)
    (hp : t.status = TaskStatus.processing) :
    (TaskManager.cancel_task tm id).2.2 = true ∧
    (TaskManager.get_task (TaskManager.cancel_task tm id).1 id).map Task.status
      = some TaskStatus.cancelled ∧
    (TaskManager.get_task
        (TaskManager.complete_task (TaskManager.cancel_task tm id).1 id result).1
        id).map Task.status = some TaskStatus.completed := by
  have hguard : (t.status == TaskStatus.completed || t.status == TaskStatus.failed) = false := by
    rw [hp]; rfl
  simp only [TaskManager.cancel_task, TaskManager.complete_task, h, hguard,
    Bool.false_eq_true, if_false]
  simp only [TaskManager.get_task, alookup_aset, Option.map_some']
  exact ⟨trivial, trivial, trivial⟩

/-- Witness for the amended C2 at the concrete one-task registry. -/
theorem cancel_then_complete_sets_completed_witness :
    (TaskManager.cancel_task (exTM .processing) "t1").2.2 = true ∧
    (TaskManager.get_task (TaskManager.cancel_task (exTM .processing) "t1").1 "t1").map
        Task.status = some TaskStatus.cancelled ∧
    (TaskManager.get_task
        (TaskManager.complete_task (TaskManager.cancel_task (exTM .processing) "t1").1
          "t1" (.dict [])).1
        "t1").map Task.status = some TaskStatus.completed :=
  cancel_then_complete_sets_completed (exTM .processing) "t1" (exTask .processing)
    (.dict []) rfl rfl

/-! ## C4 — cancel_task on terminal jobs -/

/-- Counterexample to C4 as stated: on a job whose status is already
CANCELLED — a terminal status — `cancel_task` returns TRUE, not false,
because the guard at task_manager.py:153 checks only COMPLETED and FAILED. -/
theorem cancel_task_on_cancelled_returns_true :
    (TaskManager.cancel_task (exTM .cancelled) "t1").2.2 = true := by decide

/-- C4 amended: `cancel_task` returns false and leaves the registry entirely
unchanged when the job's status is COMPLETED or FAILED; on a job already
CANCELLED it instead returns true, though the job's status, progress, message,
result and error are left unchanged (the status is re-assigned the same
CANCELLED value). -/
theorem cancel_task_terminal (tm : TaskManager) (id : String) (t : Task)
    (h : TaskManager.get_task tm id = some t) :
    ((t.status = TaskStatus.completed ∨ t.status = TaskStatus.failed) →
       TaskManager.cancel_task tm id = (tm, [], false)) ∧
    (t.status = TaskStatus.cancelled →
       (TaskManager.cancel_task tm id).2.2 = true ∧
       ∃ t', TaskManager.get_task (TaskManager.cancel_task tm id).1 id = some t' ∧
         t'.status = TaskStatus.cancelled ∧ t'.progress = t.progress ∧
         t'.message = t.message ∧ t'.result = t.result ∧ t'.error = t.error) := by
  constructor
  · intro hs
    have hguard : (t.status == TaskStatus.completed || t.status == TaskStatus.failed) = true := by
      rcases hs with hs | hs <;> rw [hs] <;> rfl
    simp only [TaskManager.cancel_task, h, hguard, if_true]
  · intro hs
    have hguard : (t.status == TaskStatus.completed || t.status == TaskStatus.failed) = false := by
      rw [hs]; rfl
    simp only [TaskManager.cancel_task, h, hguard, Bool.false_eq_true, if_false]
    refine ⟨trivial,
      ⟨{ t with
          status := TaskStatus.cancelled
          futureCancelled := t.futureCancelled || t.hasFuture },
       ?_, rfl, rfl, rfl, rfl, rfl⟩⟩
    simp only [TaskManager.get_task, alookup_aset]

/-- Witness for the amended C4: a COMPLETED job is left alone with a false
return; a CANCELLED job yields a true return with all five fields unchanged. -/
theorem cancel_task_terminal_witness :
    TaskManager.cancel_task (exTM .completed) "t1" = (exTM .completed, [], false) ∧
    ((TaskManager.cancel_task (exTM .cancelled) "t1").2.2 = true ∧
     ∃ t', TaskManager.get_task (TaskManager.cancel_task (exTM .cancelled) "t1").1 "t1"
             = some t' ∧
       t'.status = TaskStatus.cancelled ∧ t'.progress = (exTask .cancelled).progress ∧
       t'.message = (exTask .cancelled).message ∧ t'.result = (exTask .cancelled).result ∧
       t'.error = (exTask .cancelled).error) :=
  ⟨(cancel_task_terminal (exTM .completed) "t1" (exTask .completed) rfl).1 (Or.inl rfl),
   (cancel_task_terminal (exTM .cancelled) "t1" (exTask .cancelled) rfl).2 rfl⟩

/-! ## C8 — subscribing to an unknown task id -/

/-- Counterexample to C8 as stated: subscribing to an id with no task in the
registry is NOT a state-preserving no-op — `subscribe_to_task`
(task_manager.py:63-68) never checks task existence and records the callback
in the subscribers map, changing the registry's state. -/
theorem subscribe_to_unknown_mutates_state :
    (TaskManager.subscribe_to_task ⟨[], []⟩ "gone" 7).subscribers
      ≠ (⟨[], []⟩ : TaskManager).subscribers := by decide

/-- C8 amended: subscribing to a task id with no task in the registry raises
no error, leaves the task table unchanged, and the callback receives no
notification (`notify_subscribers` returns early when the task lookup fails) —
but the subscribers map does change: the callback is appended under that id. -/
theorem subscribe_unknown_no_delivery (tm : TaskManager) (id : String) (cb : Nat)
    (h : TaskManager.get_task tm id = none) :
    TaskManager.notify_subscribers (TaskManager.subscribe_to_task tm id cb) id = [] ∧
    (TaskManager.subscribe_to_task tm id cb).tasks = tm.tasks ∧
    alookup (TaskManager.subscribe_to_task tm id cb).subscribers id
      = some ((alookup tm.subscribers id).getD [] ++ [cb]) := by
  refine ⟨?_, rfl, alookup_aset _ _ _⟩
  have h' : alookup tm.tasks id = none := h
  simp only [TaskManager.notify_subscribers, TaskManager.subscribe_to_task, alookup_aset, h']

/-- Witness for the amended C8 on the empty registry. -/
theorem subscribe_unknown_no_delivery_witness :
    TaskManager.notify_subscribers (TaskManager.subscribe_to_task ⟨[], []⟩ "gone" 7) "gone"
      = [] ∧
    (TaskManager.subscribe_to_task (⟨[], []⟩ : TaskManager) "gone" 7).tasks
      = (⟨[], []⟩ : TaskManager).tasks ∧
    alookup (TaskManager.subscribe_to_task (⟨[], []⟩ : TaskManager) "gone" 7).subscribers
        "gone"
      = some ((alookup (⟨[], []⟩ : TaskManager).subscribers "gone").getD [] ++ [7]) :=
  subscribe_unknown_no_delivery ⟨[], []⟩ "gone" 7 rfl

/-! ## C3 — exceptions in offloaded computations -/

/-- Counterexample to C3 as stated: at the concrete store below (one image row,
no result records), an exception `"boom"` raised inside the offloaded K-means
computation is returned (re-raised) by `run_kmeans_task`, i.e. it propagates to
the background-task runner, and the store is returned completely unchanged —
in particular no record with `status:"failed"` and the error message exists
anywhere, contradicting both the capture and the durable-write parts of the
claim. -/
theorem run_kmeans_task_error_escapes :
    run_kmeans_task ⟨[], ["uploads/results/1/old.jpg"], [⟨1, 1⟩], 5, 5⟩ 1 (.error "boom")
      = (⟨[], ["uploads/results/1/old.jpg"], [⟨1, 1⟩], 5, 5⟩, .error "boom") := rfl

/-- C3 amended: an exception raised inside the offloaded K-means computation is
NOT captured by `run_kmeans_task`: the `except` clause (k_means.py:226-228)
logs it and re-raises, so the exception propagates out of the task and the
durable store is left completely untouched — no record is created or updated,
no `status:"failed"` payload is written, and `mark_as_failed` is never invoked
by this flow (nothing outside the test suite calls it). -/
theorem run_kmeans_task_propagates_errors (db : DB) (image_id : Int) (e : String) :
    run_kmeans_task db image_id (.error e) = (db, .error e) := rfl

/-! ## C7 / C10 — update_result_data and mark_as_failed -/

/-- Closed form of `update_result_data` on a uniquely matched record with a
dict payload: the record's payload is replaced by
`_pack(old params-or-empty, data, resources)`. -/
theorem update_result_data_eq (db : DB) (rid : Nat) (data : Val)
    (resources : Option (List Val)) (record : Record) (m : List (String × Val))
    (h : db.records.filter (fun r => r.id == rid) = [record])
    (hm : record.result = .dict m) :
    ResultService.update_result_data db rid data resources =
      ({ db with records := db.records.map (fun r =>
            if r.id == rid then
              { record with
                  result := ResultService.pack ((dfind m "params").getD (.dict []))
                              data resources }
            else r) },
       some { record with
                result := ResultService.pack ((dfind m "params").getD (.dict []))
                            data resources }) := by
  have hcur : (if truthy record.result then record.result else Val.dict []) = .dict m := by
    rw [hm]
    cases m with
    | nil => simp [truthy]
    | cons a l => simp [truthy]
  simp only [ResultService.update_result_data, h, hcur]

/-- C7: on a record found by its id, `update_result_data` replaces `data` and
`resources` but carries the record's previous `params` over into the new
payload; on an id matching no record, it returns `None` and leaves the store
untouched, raising nothing. -/
theorem ResultService.update_result_data_frame (db : DB) (rid : Nat) (data : Val)
    (resources : Option (List Val)) :
    (∀ record m, db.records.filter (fun r => r.id == rid) = [record] →
        record.result = .dict m →
        ∃ r', (ResultService.update_result_data db rid data resources).2 = some r' ∧
          r'.result = .dict [("params", (dfind m "params").getD (.dict [])),
                             ("data", data),
                             ("resources", .list (resources.getD []))]) ∧
    (db.records.filter (fun r => r.id == rid) = [] →
        ResultService.update_result_data db rid data resources = (db, none)) := by
  constructor
  · intro record m h hm
    rw [update_result_data_eq db rid data resources record m h hm]
    exact ⟨_, rfl, rfl⟩
  · intro h
    simp only [ResultService.update_result_data, h]

/-! ### Concrete store fixtures -/

/-- A packed `(7, "cluster")` record with id 1 referencing one resource file. -/
def exPackedRecord : Record :=
  { id := 1, image_id := 7, name_method := "cluster",
    result := .dict
      [("params", .dict [("k", .int 3)]),
       ("data", .dict [("status", .str "processing"), ("progress", .int 0)]),
       ("resources", .list [.dict [("type", .str "image"), ("key", .str "img"),
                                   ("path", .str "uploads/r/1.jpg")]])],
    created_at := 0 }

/-- A store holding exactly `exPackedRecord`, its resource file on disk. -/
def exDB : DB :=
  { records := [exPackedRecord], disk := ["uploads/r/1.jpg"], images := [],
    nextId := 2, now := 1 }

/-- Witness for C7 on `exDB`: updating record 1 keeps `params`, replaces
`data`/`resources`; updating the absent id 9 returns `None` with the store
unchanged. -/
theorem ResultService.update_result_data_frame_witness :
    (∃ r', (ResultService.update_result_data exDB 1
              (.dict [("status", .str "completed")]) (some [])).2 = some r' ∧
       r'.result = .dict [("params", .dict [("k", .int 3)]),
                          ("data", .dict [("status", .str "completed")]),
                          ("resources", .list [])]) ∧
    ResultService.update_result_data exDB 9
        (.dict [("status", .str "completed")]) (some []) = (exDB, none) :=
  ⟨(ResultService.update_result_data_frame exDB 1 (.dict [("status", .str "completed")])
      (some [])).1 exPackedRecord
      [("params", .dict [("k", .int 3)]),
       ("data", .dict [("status", .str "processing"), ("progress", .int 0)]),
       ("resources", .list [.dict [("type", .str "image"), ("key", .str "img"),
                                   ("path", .str "uploads/r/1.jpg")]])] rfl rfl,
   (ResultService.update_result_data_frame exDB 9 (.dict [("status", .str "completed")])
      (some [])).2 rfl⟩

/-- C10: `mark_as_failed` on an existing record writes
`data = {status:"failed", error:message}` into the payload, keeps the old
`params`, RESETS `resources` to the empty list (the `resources` argument of the
underlying `update_result_data` call is left at its `None` default, which
`_pack` turns into `[]`), and performs no disk operation — the files the
discarded resource entries pointed at stay on disk. -/
theorem ResultService.mark_as_failed_spec (db : DB) (rid : Nat) (msg : String)
    (record : Record) (m : List (String × Val))
    (h : db.records.filter (fun r => r.id == rid) = [record])
    (hm : record.result = .dict m) :
    ∃ r', (ResultService.mark_as_failed db rid msg).2 = some r' ∧
      r'.result = .dict [("params", (dfind m "params").getD (.dict [])),
                         ("data", .dict [("status", .str "failed"), ("error", .str msg)]),
                         ("resources", .list [])] ∧
      (ResultService.mark_as_failed db rid msg).1.disk = db.disk := by
  unfold ResultService.mark_as_failed
  rw [update_result_data_eq db rid _ none record m h hm]
  exact ⟨_, rfl, rfl, rfl⟩

/-- Witness for C10 on `exDB`: record 1 held a resource entry pointing at
`uploads/r/1.jpg`; after `mark_as_failed` the payload's `resources` is empty
while the file is still on disk. -/
theorem ResultService.mark_as_failed_spec_witness :
    ∃ r', (ResultService.mark_as_failed exDB 1 "boom").2 = some r' ∧
      r'.result = .dict [("params", .dict [("k", .int 3)]),
                         ("data", .dict [("status", .str "failed"), ("error", .str "boom")]),
                         ("resources", .list [])] ∧
      (ResultService.mark_as_failed exDB 1 "boom").1.disk = ["uploads/r/1.jpg"] :=
  ResultService.mark_as_failed_spec exDB 1 "boom" exPackedRecord
    [("params", .dict [("k", .int 3)]),
     ("data", .dict [("status", .str "processing"), ("progress", .int 0)]),
     ("resources", .list [.dict [("type", .str "image"), ("key", .str "img"),
                                 ("path", .str "uploads/r/1.jpg")]])] rfl rfl

/-! ## C9 — record deletion and resource files -/

/-- Counterexample to C9 as stated: `delete_all_image_results` (the
remove-image flow) deletes `exPackedRecord` — the store afterwards has no
records — yet the file `uploads/r/1.jpg`, listed under the record's
`resources`, is still on disk: the bulk `DELETE ... WHERE image_id = 7` it
issues bypasses the ORM `after_delete` listener, and its manual cleanup loop
probes only legacy top-level path fields, never `resources`. -/
theorem bulk_delete_leaves_resource_file :
    (delete_all_image_results exDB 7).records = [] ∧
    "uploads/r/1.jpg" ∈ (delete_all_image_results exDB 7).disk := by
  constructor
  · rfl
  · decide

/-- C9 amended: a record deleted through an ORM session delete (the deletion
loops of the result service, which fire `receive_after_delete`) has every
truthy-string path listed under its `resources` removed from disk; records
deleted by the bulk DELETE of `delete_all_image_results` do not get this
treatment (see the counterexample). -/
theorem orm_delete_removes_resource_files (db : DB) (pred : Record → Bool)
    (r : Record) (p : String) (hr : r ∈ db.records) (hpred : pred r = true)
    (hp : p ∈ resourcePaths r.result) :
    p ∉ (deleteRecordsWhere db pred).disk := by
  intro hmem
  simp only [deleteRecordsWhere] at hmem
  have h2 := (List.mem_filter.mp hmem).2
  rw [Bool.not_eq_true'] at h2
  have hmem2 : p ∈ ((db.records.filter pred).map (fun r => resourcePaths r.result)).flatten :=
    List.mem_flatten.mpr ⟨resourcePaths r.result,
      List.mem_map.mpr ⟨r, List.mem_filter.mpr ⟨hr, hpred⟩, rfl⟩, hp⟩
  have hc : (((db.records.filter pred).map (fun r => resourcePaths r.result)).flatten).contains p
      = true := by
    simpa [List.contains] using List.elem_iff.mpr hmem2
  rw [hc] at h2
  exact Bool.noConfusion h2

/-- Witness for the amended C9: ORM-deleting the `(7, "cluster")` records of
`exDB` removes `uploads/r/1.jpg` from disk. -/
theorem orm_delete_removes_resource_files_witness :
    "uploads/r/1.jpg" ∉ (deleteRecordsWhere exDB (matchesPair 7 "cluster")).disk :=
  orm_delete_removes_resource_files exDB (matchesPair 7 "cluster") exPackedRecord
    "uploads/r/1.jpg" (by simp [exDB]) (by decide) (by decide)

/-! ## C1 — replace-previous uniqueness -/

/-- One C1 call for the fixed `(image_id, method)` pair: either a
`create_pending_result` or a `save_structured_result`, both invoked with
`clear_previous = True`. -/
inductive ReplaceOp where
  | pending (params : Val)
  | save (params data : Val) (resources : Option (List Val))

/-- Applies a `ReplaceOp` to the store. -/
def applyReplaceOp (image_id : Int) (method : String) (db : DB) :
    ReplaceOp → DB × Record
  | .pending p => ResultService.create_pending_result db image_id method p true
  | .save p d r => ResultService.save_structured_result db image_id method p d r true

/-- Runs a sequence of C1 calls, tracking the record inserted by the most
recent call. -/
def runReplaceOps (image_id : Int) (method : String) :
    DB → Option Record → List ReplaceOp → DB × Option Record
  | db, last, [] => (db, last)
  | db, _, op :: rest =>
      runReplaceOps image_id method (applyReplaceOp image_id method db op).1
        (some (applyReplaceOp image_id method db op).2) rest

/-- After a single replace-previous call, the freshly inserted record is the
only one in the store for the pair. -/
theorem applyReplaceOp_filter (image_id : Int) (method : String) (db : DB)
    (op : ReplaceOp) :
    (applyReplaceOp image_id method db op).1.records.filter (matchesPair image_id method)
      = [(applyReplaceOp image_id method db op).2] := by
  cases op with
  | pending p =>
      simp only [applyReplaceOp, ResultService.create_pending_result, deleteRecordsWhere,
        if_true]
      rw [List.filter_append, filter_filter_not]
      simp [matchesPair, List.filter_cons]
  | save p d r =>
      simp only [applyReplaceOp, ResultService.save_structured_result, deleteRecordsWhere,
        if_true]
      rw [List.filter_append, filter_filter_not]
      simp [matchesPair, List.filter_cons]

/-- Every nonempty run of replace-previous calls ends with exactly the last
inserted record in the store for the pair, whatever the starting state. -/
theorem runReplaceOps_last (image_id : Int) (method : String) :
    ∀ (ops : List ReplaceOp) (db : DB) (last : Option Record), ops ≠ [] →
      ∃ r, (runReplaceOps image_id method db last ops).2 = some r ∧
        (runReplaceOps image_id method db last ops).1.records.filter
          (matchesPair image_id method) = [r] := by
  intro ops
  induction ops with
  | nil => intro db last h; exact absurd rfl h
  | cons op rest ih =>
      intro db last _
      cases rest with
      | nil =>
          simp only [runReplaceOps]
          exact ⟨(applyReplaceOp image_id method db op).2, rfl,
            applyReplaceOp_filter image_id method db op⟩
      | cons op2 rest2 =>
          simp only [runReplaceOps]
          exact ih (applyReplaceOp image_id method db op).1
            (some (applyReplaceOp image_id method db op).2) (by simp)

/-- C1: starting from any store, after any nonempty finite sequence of
`create_pending_result` / `save_structured_result` calls for a fixed
`(image_id, method)` pair with `clear_previous = True`, exactly one record for
that pair exists in the store, namely the one inserted by the last call. -/
theorem replace_previous_unique (image_id : Int) (method : String)
    (ops : List ReplaceOp) (db : DB) (hne : ops ≠ []) :
    ∃ r, (runReplaceOps image_id method db none ops).2 = some r ∧
      (runReplaceOps image_id method db none ops).1.records.filter
        (matchesPair image_id method) = [r] :=
  runReplaceOps_last image_id method ops db none hne

/-- Records with ids below a fresh id are untouched by a replace-by-id map. -/
theorem map_replace_fresh (l : List Record) (n : Nat) (newR : Record)
    (h : ∀ r ∈ l, r.id < n) :
    l.map (fun r => if r.id == n then newR else r) = l := by
  have hcong : ∀ r ∈ l, (if r.id == n then newR else r) = id r := by
    intro r hr
    have hne : (r.id == n) = false := beq_eq_false_iff_ne.mpr (Nat.ne_of_lt (h r hr))
    rw [hne]
    rfl
  rw [List.map_congr_left hcong, List.map_id]

/-- No record with an id below a fresh id matches a filter by that id. -/
theorem filter_id_fresh (l : List Record) (n : Nat)
    (h : ∀ r ∈ l, r.id < n) :
    l.filter (fun r => r.id == n) = [] := by
  rw [List.filter_eq_nil_iff]
  intro r hr
  simp only [beq_iff_eq]
  exact Nat.ne_of_lt (h r hr)

/-- Witness for C1: a pending call followed by a save call on the empty
store leaves exactly the save's record. -/
theorem replace_previous_unique_witness :
    ∃ r, (runReplaceOps 7 "cluster" ⟨[], [], [], 0, 0⟩ none
        [.pending (.dict [("k", .int 3)]),
         .save (.dict [("k", .int 3)]) (.dict [("v", .int 1)]) none]).2 = some r ∧
      (runReplaceOps 7 "cluster" ⟨[], [], [], 0, 0⟩ none
        [.pending (.dict [("k", .int 3)]),
         .save (.dict [("k", .int 3)]) (.dict [("v", .int 1)]) none]).1.records.filter
        (matchesPair 7 "cluster") = [r] :=
  replace_previous_unique 7 "cluster"
    [.pending (.dict [("k", .int 3)]),
     .save (.dict [("k", .int 3)]) (.dict [("v", .int 1)]) none]
    ⟨[], [], [], 0, 0⟩ (by simp)

/-! ## C5 — Scenario A for (7, "cluster") -/

/-- Closed form of `create_pending_result` with `clear_previous = True`:
matching records are dropped (their resource files leaving the disk), and a
fresh record with the pending payload is appended. -/
theorem create_pending_result_eq (db : DB) (i : Int) (m : String) (params : Val) :
    ResultService.create_pending_result db i m params true
      = (⟨db.records.filter (fun r => !(matchesPair i m r)) ++
            [⟨db.nextId, i, m,
              ResultService.pack params
                (.dict [("status", .str "processing"), ("progress", .int 0)]) (some []),
              db.now⟩],
          db.disk.filter (fun p =>
            !((((db.records.filter (matchesPair i m)).map
                  (fun r => resourcePaths r.result)).flatten).contains p)),
          db.images, db.nextId + 1, db.now + 1⟩,
        ⟨db.nextId, i, m,
         ResultService.pack params
           (.dict [("status", .str "processing"), ("progress", .int 0)]) (some []),
         db.now⟩) := rfl

/-- C5: from any store with no `(7, "cluster")` record whose primary-key
counter is ahead of every stored id (as the autoincrement column guarantees),
`create_pending_result(7, "cluster", {k:3})` yields a record whose payload
packs `params = {k:3}` with `data = {status:"processing", progress:0}`; after
`update_result_data(record.id, {status:"completed", centers:[1,2,3]}, [])`,
`get_latest_result_data(7, "cluster")` returns the flat map
`{k:3, status:"completed", centers:[1,2,3]}`. -/
theorem scenario_cluster (db0 : DB)
    (hnone : db0.records.filter (matchesPair 7 "cluster") = [])
    (hfresh : ∀ r ∈ db0.records, r.id < db0.nextId) :
    (ResultService.create_pending_result db0 7 "cluster" (.dict [("k", .int 3)]) true).2.result
      = .dict [("params", .dict [("k", .int 3)]),
               ("data", .dict [("status", .str "processing"), ("progress", .int 0)]),
               ("resources", .list [])] ∧
    ResultService.get_latest_result_data
      (ResultService.update_result_data
        (ResultService.create_pending_result db0 7 "cluster" (.dict [("k", .int 3)]) true).1
        (ResultService.create_pending_result db0 7 "cluster" (.dict [("k", .int 3)]) true).2.id
        (.dict [("status", .str "completed"), ("centers", .list [.int 1, .int 2, .int 3])])
        (some [])).1
      7 "cluster"
      = .ok (some (.dict [("k", .int 3), ("status", .str "completed"),
                          ("centers", .list [.int 1, .int 2, .int 3])])) := by
  constructor
  · rfl
  · rw [create_pending_result_eq]
    dsimp only
    have hCLfresh : ∀ r ∈ db0.records.filter (fun r => !(matchesPair 7 "cluster" r)),
        r.id < db0.nextId := fun r hr => hfresh r (List.mem_of_mem_filter hr)
    have hfilter : ((db0.records.filter (fun r => !(matchesPair 7 "cluster" r)) ++
        [(⟨db0.nextId, 7, "cluster",
           ResultService.pack (.dict [("k", .int 3)])
             (.dict [("status", .str "processing"), ("progress", .int 0)]) (some []),
           db0.now⟩ : Record)]).filter (fun r => r.id == db0.nextId))
        = [(⟨db0.nextId, 7, "cluster",
             ResultService.pack (.dict [("k", .int 3)])
               (.dict [("status", .str "processing"), ("progress", .int 0)]) (some []),
             db0.now⟩ : Record)] := by
      rw [List.filter_append, filter_id_fresh _ db0.nextId hCLfresh]
      simp
    rw [update_result_data_eq _ db0.nextId _ (some [])
      (⟨db0.nextId, 7, "cluster",
        ResultService.pack (.dict [("k", .int 3)])
          (.dict [("status", .str "processing"), ("progress", .int 0)]) (some []),
        db0.now⟩ : Record)
      [("params", .dict [("k", .int 3)]),
       ("data", .dict [("status", .str "processing"), ("progress", .int 0)]),
       ("resources", .list [])]
      hfilter rfl]
    dsimp only
    rw [List.map_append, map_replace_fresh _ db0.nextId _ hCLfresh]
    simp only [List.map_cons, List.map_nil, beq_self_eq_true, if_true]
    simp only [ResultService.get_latest_result_data, ResultService.get_latest_result]
    rw [List.filter_append, filter_filter_not]
    simp [matchesPair, ResultService.unpack, ResultService.pack, hasKey, dfind, merge,
      Except.map]

/-- Witness for C5 on the empty store. -/
theorem scenario_cluster_witness :
    (ResultService.create_pending_result ⟨[], [], [], 0, 0⟩ 7 "cluster"
        (.dict [("k", .int 3)]) true).2.result
      = .dict [("params", .dict [("k", .int 3)]),
               ("data", .dict [("status", .str "processing"), ("progress", .int 0)]),
               ("resources", .list [])] ∧
    ResultService.get_latest_result_data
      (ResultService.update_result_data
        (ResultService.create_pending_result ⟨[], [], [], 0, 0⟩ 7 "cluster"
            (.dict [("k", .int 3)]) true).1
        (ResultService.create_pending_result ⟨[], [], [], 0, 0⟩ 7 "cluster"
            (.dict [("k", .int 3)]) true).2.id
        (.dict [("status", .str "completed"), ("centers", .list [.int 1, .int 2, .int 3])])
        (some [])).1
      7 "cluster"
      = .ok (some (.dict [("k", .int 3), ("status", .str "completed"),
                          ("centers", .list [.int 1, .int 2, .int 3])])) :=
  scenario_cluster ⟨[], [], [], 0, 0⟩ rfl (by simp)

end DatasetManager
